import Mathlib

/-!
Verification development for the gammapy tutorial/CI repository.

The repository contains two Jupyter notebooks (`tutorials/analysis_2.ipynb`,
`tutorials/sed_fitting.ipynb`), a Travis CI build-matrix configuration and a
conda environment file.  The notebooks are linear scripts of Python
statements; we embed each notebook as the list of its code-cell statements,
in source order, where each statement records the variable it assigns (if
any), the operation it performs, and the variables it reads.  Operations are
identified by an inductive `Op` whose constructors correspond one-to-one to
the calls appearing in the notebook source; literal string arguments that
matter (paths, catalog keys, flags) are carried on the constructor.
-/

set_option maxHeartbeats 1600000 in
/-- Operations appearing as notebook statements.  Each constructor names the
library call / expression form of one statement of the notebook source.  The
constructors `tryExcept`, `retryStmt`, `assertStmt` and `raiseStmt` are forms
the embedding could express (Python error handling); the theorems show the
notebooks never use them. -/
inductive Op where
  | magicCmd (cmd : String)
  | pyImport (module : String)
  | dataStoreFromDir (path : String)
  | dictLiteral
  | selectObservations
  | getObservations
  | mapAxisFromEnergyBounds
  | wcsGeomCreate
  | mapDatasetCreate (name : String)
  | unitExpr
  | mapDatasetMakerInit
  | safeMaskMakerInit
  | circleSkyRegionInit
  | regionMask
  | mapFromGeom
  | fovBackgroundMakerInit
  | cutoutCall
  | mapDatasetMakerRun
  | fovBackgroundMakerRun
  | printCall
  | safeMaskMakerRun
  | stackCall
  | plotCall
  | pathInit (dir : String)
  | mkdirCall (dir : String) (existOk : Bool)
  | pathJoin (fullPath : String)
  | writeCall (file : String) (overwrite : Bool)
  | skyCoordInit
  | pointSpatialModelInit
  | powerLawSpectralModelInit
  | skyModelInit
  | assignModels
  | fitInit
  | fitRun
  | displayExpr
  | residualsCall
  | statProfileCall
  | attrAccess
  | statDeltaPlot
  | getSubcovariance
  | setCovariance
  | fluxPointsEstimatorInit
  | fluxPointsEstimatorRun
  | fluxPointsPlot
  | sourceCatalogInit (key : String)
  | catalogGetSource (srcName : String)
  | fluxPointsAttr
  | toSedType
  | fluxPointsStackCall
  | tableAttr
  | dndeErrCompute
  | npIsFinite
  | fluxPointsFromTable
  | expCutoffPowerLawInit
  | logParabolaInit
  | fluxPointsDatasetInit
  | tryExcept
  | retryStmt
  | assertStmt
  | raiseStmt

/-- A notebook statement: the assigned variable (if the statement is an
assignment), the operation performed, the variables read by the statement,
and whether the statement sits inside the data-reduction `for` loop. -/
structure Stmt where
  target : Option String
  op : Op
  args : List String
  inLoop : Bool

/-- Statements of the body of the reduction `for` loop of
`tutorials/analysis_2.ipynb` (the `for obs in observations:` cell), in source
order: cutout of the target map, `maker.run`, `maker_fov.run`, the progress
`print`, `maker_safe_mask.run`, and `stacked.stack`. -/
def reductionLoopBody : List Stmt :=
  [ ⟨some "cutout", Op.cutoutCall, ["stacked", "obs", "offset_max"], true⟩,
    ⟨some "dataset", Op.mapDatasetMakerRun, ["maker", "cutout", "obs"], true⟩,
    ⟨some "dataset", Op.fovBackgroundMakerRun, ["maker_fov", "dataset"], true⟩,
    ⟨none, Op.printCall, ["obs", "dataset"], true⟩,
    ⟨some "dataset", Op.safeMaskMakerRun, ["maker_safe_mask", "dataset", "obs"], true⟩,
    ⟨none, Op.stackCall, ["stacked", "dataset"], true⟩ ]

/-- Statements of the code cells of `tutorials/analysis_2.ipynb`, flattened
in source order (the loop-body statements appear at the position of the
loop cell, marked `inLoop := true`). -/
def analysis2Stmts : List Stmt :=
  [ ⟨none, Op.magicCmd "matplotlib inline", [], false⟩,
    ⟨none, Op.pyImport "matplotlib.pyplot", [], false⟩,
    ⟨none, Op.pyImport "pathlib", [], false⟩,
    ⟨none, Op.pyImport "numpy", [], false⟩,
    ⟨none, Op.pyImport "astropy.units", [], false⟩,
    ⟨none, Op.pyImport "astropy.coordinates", [], false⟩,
    ⟨none, Op.pyImport "regions", [], false⟩,
    ⟨none, Op.pyImport "gammapy.data", [], false⟩,
    ⟨none, Op.pyImport "gammapy.maps", [], false⟩,
    ⟨none, Op.pyImport "gammapy.cube", [], false⟩,
    ⟨none, Op.pyImport "gammapy.modeling.models", [], false⟩,
    ⟨none, Op.pyImport "gammapy.modeling", [], false⟩,
    ⟨none, Op.pyImport "gammapy.spectrum", [], false⟩,
    ⟨some "data_store", Op.dataStoreFromDir "$GAMMAPY_DATA/hess-dl3-dr1", [], false⟩,
    ⟨some "selection", Op.dictLiteral, [], false⟩,
    ⟨some "selected_obs_table", Op.selectObservations, ["data_store", "selection"], false⟩,
    ⟨some "observations", Op.getObservations, ["data_store", "selected_obs_table"], false⟩,
    ⟨some "energy_axis", Op.mapAxisFromEnergyBounds, [], false⟩,
    ⟨some "geom", Op.wcsGeomCreate, ["energy_axis"], false⟩,
    ⟨some "energy_axis_true", Op.mapAxisFromEnergyBounds, [], false⟩,
    ⟨some "stacked", Op.mapDatasetCreate "crab-stacked", ["geom", "energy_axis_true"], false⟩,
    ⟨some "offset_max", Op.unitExpr, [], false⟩,
    ⟨some "maker", Op.mapDatasetMakerInit, [], false⟩,
    ⟨some "maker_safe_mask", Op.safeMaskMakerInit, ["offset_max"], false⟩,
    ⟨some "circle", Op.circleSkyRegionInit, [], false⟩,
    ⟨some "data", Op.regionMask, ["geom", "circle"], false⟩,
    ⟨some "exclusion_mask", Op.mapFromGeom, ["geom", "data"], false⟩,
    ⟨some "maker_fov", Op.fovBackgroundMakerInit, ["exclusion_mask"], false⟩ ]
  ++ reductionLoopBody ++
  [ ⟨none, Op.plotCall, ["stacked"], false⟩,
    ⟨some "path", Op.pathInit "analysis_2", [], false⟩,
    ⟨none, Op.mkdirCall "analysis_2" true, ["path"], false⟩,
    ⟨some "filename", Op.pathJoin "analysis_2/crab-stacked-dataset.fits.gz", ["path"], false⟩,
    ⟨none, Op.writeCall "analysis_2/crab-stacked-dataset.fits.gz" true, ["stacked", "filename"], false⟩,
    ⟨some "target_position", Op.skyCoordInit, [], false⟩,
    ⟨some "spatial_model", Op.pointSpatialModelInit, ["target_position"], false⟩,
    ⟨some "spectral_model", Op.powerLawSpectralModelInit, [], false⟩,
    ⟨some "sky_model", Op.skyModelInit, ["spatial_model", "spectral_model"], false⟩,
    ⟨none, Op.assignModels, ["stacked", "sky_model"], false⟩,
    ⟨some "fit", Op.fitInit, ["stacked"], false⟩,
    ⟨some "result", Op.fitRun, ["fit"], false⟩,
    ⟨none, Op.displayExpr, ["result"], false⟩,
    ⟨none, Op.plotCall, ["stacked"], false⟩,
    ⟨some "region", Op.circleSkyRegionInit, [], false⟩,
    ⟨none, Op.plotCall, ["stacked", "region"], false⟩,
    ⟨some "residuals", Op.residualsCall, ["stacked"], false⟩,
    ⟨none, Op.plotCall, ["residuals"], false⟩,
    ⟨some "profile", Op.statProfileCall, ["fit"], false⟩,
    ⟨some "total_stat", Op.attrAccess, ["result"], false⟩,
    ⟨none, Op.statDeltaPlot, ["profile", "total_stat"], false⟩,
    ⟨none, Op.plotCall, [], false⟩,
    ⟨none, Op.plotCall, [], false⟩,
    ⟨some "spec", Op.attrAccess, ["sky_model"], false⟩,
    ⟨some "covar", Op.getSubcovariance, ["result", "spec"], false⟩,
    ⟨none, Op.setCovariance, ["spec", "covar"], false⟩,
    ⟨some "energy_range", Op.unitExpr, [], false⟩,
    ⟨none, Op.plotCall, ["spec", "energy_range"], false⟩,
    ⟨some "ax", Op.plotCall, ["spec", "energy_range"], false⟩,
    ⟨some "e_edges", Op.unitExpr, [], false⟩,
    ⟨some "fpe", Op.fluxPointsEstimatorInit, ["stacked", "e_edges"], false⟩,
    ⟨some "flux_points", Op.fluxPointsEstimatorRun, ["fpe"], false⟩,
    ⟨some "ax", Op.plotCall, ["spec", "energy_range"], false⟩,
    ⟨none, Op.fluxPointsPlot, ["flux_points", "ax"], false⟩ ]

/-- Statements of the code cells of `tutorials/sed_fitting.ipynb`, flattened
in source order. -/
def sedFittingStmts : List Stmt :=
  [ ⟨none, Op.magicCmd "matplotlib inline", [], false⟩,
    ⟨none, Op.pyImport "numpy", [], false⟩,
    ⟨none, Op.pyImport "astropy.units", [], false⟩,
    ⟨none, Op.pyImport "gammapy.modeling.models", [], false⟩,
    ⟨none, Op.pyImport "gammapy.spectrum", [], false⟩,
    ⟨none, Op.pyImport "gammapy.catalog", [], false⟩,
    ⟨none, Op.pyImport "gammapy.modeling", [], false⟩,
    ⟨some "catalog_3fgl", Op.sourceCatalogInit "3fgl", [], false⟩,
    ⟨some "catalog_3fhl", Op.sourceCatalogInit "3fhl", [], false⟩,
    ⟨some "catalog_gammacat", Op.sourceCatalogInit "gamma-cat", [], false⟩,
    ⟨some "source_fermi_3fgl", Op.catalogGetSource "3FGL J1506.6-6219", ["catalog_3fgl"], false⟩,
    ⟨some "source_fermi_3fhl", Op.catalogGetSource "3FHL J1507.9-6228e", ["catalog_3fhl"], false⟩,
    ⟨some "source_gammacat", Op.catalogGetSource "HESS J1507-622", ["catalog_gammacat"], false⟩,
    ⟨some "flux_points_gammacat", Op.fluxPointsAttr, ["source_gammacat"], false⟩,
    ⟨none, Op.displayExpr, ["flux_points_gammacat"], false⟩,
    ⟨some "flux_points_3fgl", Op.toSedType, ["source_fermi_3fgl"], false⟩,
    ⟨some "flux_points_3fhl", Op.toSedType, ["source_fermi_3fhl"], false⟩,
    ⟨some "flux_points", Op.fluxPointsStackCall,
      ["flux_points_gammacat", "flux_points_3fhl", "flux_points_3fgl"], false⟩,
    ⟨some "t", Op.tableAttr, ["flux_points"], false⟩,
    ⟨none, Op.dndeErrCompute, ["t"], false⟩,
    ⟨some "is_ul", Op.npIsFinite, ["t"], false⟩,
    ⟨some "flux_points", Op.fluxPointsFromTable, ["t", "is_ul"], false⟩,
    ⟨none, Op.displayExpr, ["flux_points"], false⟩,
    ⟨some "pwl", Op.powerLawSpectralModelInit, [], false⟩,
    ⟨some "model", Op.skyModelInit, ["pwl"], false⟩,
    ⟨some "dataset_pwl", Op.fluxPointsDatasetInit, ["model", "flux_points"], false⟩,
    ⟨some "fitter", Op.fitInit, ["dataset_pwl"], false⟩,
    ⟨some "result_pwl", Op.fitRun, ["fitter"], false⟩,
    ⟨none, Op.printCall, ["result_pwl"], false⟩,
    ⟨none, Op.printCall, ["pwl"], false⟩,
    ⟨some "ax", Op.fluxPointsPlot, ["flux_points"], false⟩,
    ⟨none, Op.plotCall, ["pwl", "ax"], false⟩,
    ⟨none, Op.setCovariance, ["pwl", "result_pwl"], false⟩,
    ⟨none, Op.plotCall, ["pwl", "ax"], false⟩,
    ⟨none, Op.plotCall, ["ax"], false⟩,
    ⟨some "ecpl", Op.expCutoffPowerLawInit, [], false⟩,
    ⟨some "model", Op.skyModelInit, ["ecpl"], false⟩,
    ⟨some "dataset_ecpl", Op.fluxPointsDatasetInit, ["model", "flux_points"], false⟩,
    ⟨some "fitter", Op.fitInit, ["dataset_ecpl"], false⟩,
    ⟨some "result_ecpl", Op.fitRun, ["fitter"], false⟩,
    ⟨none, Op.printCall, ["ecpl"], false⟩,
    ⟨some "ax", Op.fluxPointsPlot, ["flux_points"], false⟩,
    ⟨none, Op.plotCall, ["ecpl", "ax"], false⟩,
    ⟨none, Op.setCovariance, ["ecpl", "result_ecpl"], false⟩,
    ⟨none, Op.plotCall, ["ecpl", "ax"], false⟩,
    ⟨none, Op.plotCall, ["ax"], false⟩,
    ⟨some "log_parabola", Op.logParabolaInit, [], false⟩,
    ⟨some "model", Op.skyModelInit, ["log_parabola"], false⟩,
    ⟨some "dataset_log_parabola", Op.fluxPointsDatasetInit, ["model", "flux_points"], false⟩,
    ⟨some "fitter", Op.fitInit, ["dataset_log_parabola"], false⟩,
    ⟨some "result_log_parabola", Op.fitRun, ["fitter"], false⟩,
    ⟨none, Op.printCall, ["log_parabola"], false⟩,
    ⟨some "ax", Op.fluxPointsPlot, ["flux_points"], false⟩,
    ⟨none, Op.plotCall, ["log_parabola", "ax"], false⟩,
    ⟨none, Op.setCovariance, ["log_parabola", "result_log_parabola"], false⟩,
    ⟨none, Op.plotCall, ["log_parabola", "ax"], false⟩,
    ⟨none, Op.plotCall, ["ax"], false⟩ ]

/-- Checks that the predicates in `ps` are matched, in order, by some
subsequence of `ss`. -/
def matchSeq (ps : List (Stmt → Bool)) (ss : List Stmt) : Bool :=
  match ps, ss with
  | [], _ => true
  | _ :: _, [] => false
  | p :: ps', s :: ss' => if p s then matchSeq ps' ss' else matchSeq (p :: ps') ss'

/-- Pipeline step (a): open a data store. -/
def isStepOpenStore (s : Stmt) : Bool :=
  match s.op with
  | Op.dataStoreFromDir _ => true
  | _ => false

/-- Pipeline step (b): select observations matching a sky-region query. -/
def isStepSelect (s : Stmt) : Bool :=
  s.op matches Op.selectObservations

/-- Pipeline step (c): construct a target map geometry. -/
def isStepGeom (s : Stmt) : Bool :=
  s.op matches Op.wcsGeomCreate

/-- Pipeline step (d): inside the loop over observations, stack a
per-observation dataset produced by the makers. -/
def isStepStackLoop (s : Stmt) : Bool :=
  (s.op matches Op.stackCall) && s.inLoop

/-- Pipeline step (e): assign a parametric sky model to the dataset. -/
def isStepAssignModel (s : Stmt) : Bool :=
  s.op matches Op.assignModels

/-- Pipeline step (f): run a fit. -/
def isStepFitRun (s : Stmt) : Bool :=
  s.op matches Op.fitRun

/-- Pipeline step (g), first half: compute flux points. -/
def isStepFluxPoints (s : Stmt) : Bool :=
  s.op matches Op.fluxPointsEstimatorRun

/-- Pipeline step (g), second half: plot the flux points. -/
def isStepFluxPlot (s : Stmt) : Bool :=
  s.op matches Op.fluxPointsPlot

/-- The seven-step pipeline of the spec, as an ordered predicate list. -/
def pipelineSteps : List (Stmt → Bool) :=
  [isStepOpenStore, isStepSelect, isStepGeom, isStepStackLoop,
   isStepAssignModel, isStepFitRun, isStepFluxPoints, isStepFluxPlot]

/-- A notebook performs the full (a)-(g) pipeline, in order. -/
def runsPipeline (nb : List Stmt) : Bool :=
  matchSeq pipelineSteps nb

/-- C1 counterexample: the claim quantifies over every notebook of the
repository, but `sed_fitting.ipynb` does not perform the (a)-(g) pipeline:
it contains no data-store opening, no observation selection, no map-geometry
construction and no reduction loop. -/
theorem sed_fitting_lacks_pipeline :
    runsPipeline sedFittingStmts = false ∧
    sedFittingStmts.all
      (fun s => !(isStepOpenStore s || isStepSelect s || isStepGeom s || isStepStackLoop s))
      = true := by
  constructor <;> rfl

/-- C1 (amended): the `analysis_2` notebook performs steps (a)-(g) in the
stated order; the `sed_fitting` notebook performs no data-store opening,
observation selection, geometry construction or reduction loop, but does
construct a parametric model, run a fit and plot flux points, in that
order. -/
theorem notebooks_pipeline_structure :
    runsPipeline analysis2Stmts = true ∧
    sedFittingStmts.all
      (fun s => !(isStepOpenStore s || isStepSelect s || isStepGeom s || isStepStackLoop s))
      = true ∧
    matchSeq [fun s => s.op matches Op.skyModelInit, isStepFitRun, isStepFluxPlot]
      sedFittingStmts = true := by
  refine ⟨?_, ?_, ?_⟩ <;> rfl

/-- Dataflow and operation-order checker for the reduction-loop body: the
cutout of the target map feeds `maker.run`, whose output feeds
`maker_fov.run`, whose output (after the progress print) feeds
`maker_safe_mask.run`, whose output is stacked onto `stacked`. -/
def loopChainOk : List Stmt → Bool
  | [c, m, f, p, s, st] =>
    (c.op matches Op.cutoutCall) && c.target == some "cutout" && c.args.contains "stacked" &&
    (m.op matches Op.mapDatasetMakerRun) && m.args.contains "cutout" && m.target == some "dataset" &&
    (f.op matches Op.fovBackgroundMakerRun) && f.args.contains "dataset" && f.target == some "dataset" &&
    (p.op matches Op.printCall) &&
    (s.op matches Op.safeMaskMakerRun) && s.args.contains "dataset" && s.target == some "dataset" &&
    (st.op matches Op.stackCall) && st.args == ["stacked", "dataset"]
  | _ => false

/-- C3: in the reduction loop of `analysis_2.ipynb` the five operations are
applied sequentially in the order cutout, `MapDatasetMaker.run`,
`FoVBackgroundMaker.run`, `SafeMaskMaker.run`, `stacked.stack`, and each
step consumes the dataset produced by the previous one; the loop-body
statements are exactly the statements of the notebook marked as inside the
loop. -/
theorem reduction_loop_order :
    analysis2Stmts.filter (fun s => s.inLoop) = reductionLoopBody ∧
    matchSeq
      [fun s => s.op matches Op.cutoutCall,
       fun s => s.op matches Op.mapDatasetMakerRun,
       fun s => s.op matches Op.fovBackgroundMakerRun,
       fun s => s.op matches Op.safeMaskMakerRun,
       fun s => s.op matches Op.stackCall] reductionLoopBody = true ∧
    loopChainOk reductionLoopBody = true := by
  refine ⟨?_, ?_, ?_⟩ <;> rfl

/-- An environment-variable binding of the Travis configuration. -/
structure EnvBinding where
  key : String
  value : String
deriving DecidableEq

/-- One entry of `matrix.include` of the Travis configuration. -/
structure MatrixEntry where
  os : Option String
  stage : Option String
  env : List EnvBinding
deriving DecidableEq

/-- The ten entries of `matrix.include` of the Travis CI configuration
(`src/unnamed/part_000`), in file order: main coverage test, MacOS X test,
test without optional dependencies, test without GAMMAPY_DATA, docs build,
conda-build test, Astropy-dev test, Sherpa-dev test, notebook test, and
example-script test. -/
def travisMatrixInclude : List MatrixEntry :=
  [ ⟨none, some "Initial tests",
      [⟨"TEST_COVERAGE", "true"⟩, ⟨"CMD", "make test-cov"⟩,
       ⟨"PIP_DEPENDENCIES", "$PIP_DEPENDENCIES pytest-cov codecov"⟩]⟩,
    ⟨some "osx", none,
      [⟨"PYTHON_VERSION", "3.6"⟩, ⟨"CMD", "make test"⟩,
       ⟨"CONDA_DEPENDENCIES", "$CONDA_DEPENDENCIES_OSX"⟩]⟩,
    ⟨none, none,
      [⟨"PYTHON_VERSION", "3.6"⟩, ⟨"CMD", "make test"⟩,
       ⟨"CONDA_DEPENDENCIES", "Cython click regions"⟩,
       ⟨"PIP_DEPENDENCIES", "pytest-astropy parfive pydantic"⟩]⟩,
    ⟨none, some "Initial tests",
      [⟨"CMD", "make test"⟩, ⟨"FETCH_GAMMAPY_DATA", "false"⟩]⟩,
    ⟨none, none,
      [⟨"CMD", "make docs-all"⟩, ⟨"CONDA_DEPENDENCIES", "$CONDA_DEPENDENCIES_DOCS"⟩]⟩,
    ⟨none, none,
      [⟨"CMD", "python setup.py bdist_conda"⟩, ⟨"TEST_PACKAGING", "true"⟩,
       ⟨"CONDA_CHANNELS", "astropy sherpa conda-forge"⟩]⟩,
    ⟨none, none,
      [⟨"PYTHON_VERSION", "3.6"⟩, ⟨"ASTROPY_VERSION", "dev"⟩, ⟨"CMD", "make test"⟩,
       ⟨"CONDA_DEPENDENCIES", "$CONDA_DEPENDENCIES"⟩]⟩,
    ⟨none, none,
      [⟨"PYTHON_VERSION", "3.6"⟩, ⟨"SETUP_CMD", "make test"⟩,
       ⟨"CONDA_DEPENDENCIES", "$CONDA_DEPENDENCIES_WO_SHERPA"⟩, ⟨"DEBUG", "True"⟩,
       ⟨"PIP_DEPENDENCIES",
        "git+http://github.com/sherpa/sherpa.git#egg=sherpa pytest-astropy parfive pydantic"⟩]⟩,
    ⟨none, none,
      [⟨"PYTHON_VERSION", "3.6"⟩, ⟨"CMD", "make test-nb"⟩,
       ⟨"CONDA_DEPENDENCIES", "$CONDA_DEPENDENCIES_DOCS"⟩]⟩,
    ⟨none, none,
      [⟨"PYTHON_VERSION", "3.6"⟩, ⟨"CMD", "make test-scripts"⟩,
       ⟨"CONDA_DEPENDENCIES", "$CONDA_DEPENDENCIES"⟩]⟩ ]

/-- Items of the `script:` phase of the Travis configuration: the
conditional data fetch, the conditional editable install, and the single
test-command invocation, which expands an environment variable. -/
inductive ScriptItem where
  | fetchDataIf
  | installIf
  | runEnvVar (var : String)
deriving DecidableEq

/-- The `script:` phase of the Travis configuration, in file order. -/
def scriptPhase : List ScriptItem :=
  [ScriptItem.fetchDataIf, ScriptItem.installIf, ScriptItem.runEnvVar "CMD"]

/-- An entry of the build matrix declares the CMD environment variable. -/
def declaresCmd (e : MatrixEntry) : Bool :=
  e.env.any (fun b => b.key == "CMD")

/-- C2: the Sherpa-dev entry of the build matrix (entry index 7, comment
"Test with Sherpa dev") sets SETUP_CMD instead of CMD, while the script
phase invokes only `$CMD`; so for that job CMD is unset and no test command
runs.  Every other entry does declare CMD. -/
theorem sherpa_dev_entry_missing_cmd :
    travisMatrixInclude.map declaresCmd
      = [true, true, true, true, true, true, true, false, true, true] ∧
    (travisMatrixInclude[7]?).map
        (fun e => e.env.any (fun b => b.key == "SETUP_CMD" && b.value == "make test"))
      = some true ∧
    scriptPhase.contains (ScriptItem.runEnvVar "CMD") = true ∧
    scriptPhase.contains (ScriptItem.runEnvVar "SETUP_CMD") = false := by
  refine ⟨?_, ?_, ?_, ?_⟩ <;> rfl

/-- A path lies under the directory referenced by the GAMMAPY_DATA
environment variable. -/
def underGammapyData (p : String) : Bool :=
  "$GAMMAPY_DATA".data.isPrefixOf p.data

/-- File-system paths read by a statement.  `DataStore.from_dir` opens the
index files of its directory argument; `get_observations` then reads the
event and IRF files of the selected runs from the same data-store directory
(dataflow: `data_store` was created from `$GAMMAPY_DATA/hess-dl3-dr1`); the
`SOURCE_CATALOGS` constructors read the catalog files shipped under
`$GAMMAPY_DATA/catalogs`.  Modelled from the spec for the library calls
whose implementation is not under `src/`: the library reads
instrument-response and event files from a directory referenced by an
environment variable. -/
def fsReadPaths (s : Stmt) : List String :=
  match s.op with
  | Op.dataStoreFromDir p => [p]
  | Op.getObservations => ["$GAMMAPY_DATA/hess-dl3-dr1"]
  | Op.sourceCatalogInit k => ["$GAMMAPY_DATA/catalogs/" ++ k]
  | _ => []

/-- File-system paths written by a statement (`MapDataset.write`). -/
def fsWritePaths (s : Stmt) : List String :=
  match s.op with
  | Op.writeCall f _ => [f]
  | _ => []

/-- Directories created by a statement (`Path.mkdir`). -/
def fsDirCreates (s : Stmt) : List String :=
  match s.op with
  | Op.mkdirCall d _ => [d]
  | _ => []

/-- C4: every file-system read of `analysis_2.ipynb` is under the directory
referenced by GAMMAPY_DATA, and its only data-product write is the stacked
dataset written to `analysis_2/crab-stacked-dataset.fits.gz` (the only other
file-system effect is creating the `analysis_2` directory). -/
theorem analysis2_fs_effects :
    ((analysis2Stmts.flatMap fsReadPaths).all underGammapyData) = true ∧
    analysis2Stmts.flatMap fsWritePaths = ["analysis_2/crab-stacked-dataset.fits.gz"] ∧
    analysis2Stmts.flatMap fsDirCreates = ["analysis_2"] := by
  refine ⟨?_, ?_, ?_⟩ <;> rfl

/-- Error-handling or invariant-checking statement forms: try/except,
retry, assert, raise. -/
def isHandlingOp : Op → Bool
  | Op.tryExcept => true
  | Op.retryStmt => true
  | Op.assertStmt => true
  | Op.raiseStmt => true
  | _ => false

/-- An operation is the try/except form. -/
def isTryExceptOp : Op → Bool
  | Op.tryExcept => true
  | _ => false

/-- Execution of a statement list under a failure oracle: a statement whose
library call raises aborts execution with that error, unless the statement
is wrapped in a try/except form, which would swallow the failure. -/
def execStmts (oracle : Stmt → Option String) : List Stmt → Except String Unit
  | [] => Except.ok ()
  | s :: rest =>
    match oracle s with
    | some e =>
      if isTryExceptOp s.op then execStmts oracle rest else Except.error e
    | none => execStmts oracle rest

/-- Helper: an operation that is not an error-handling form is in
particular not a try/except form. -/
theorem not_tryExcept_of_not_handling (o : Op) (h : isHandlingOp o = false) :
    isTryExceptOp o = false := by
  cases o <;> first
    | rfl
    | exact absurd h (by decide)

/-- Helper: in a statement list containing no error-handling forms, any
failing statement makes the whole execution fail. -/
theorem execStmts_fail_of_mem (oracle : Stmt → Option String) :
    ∀ l : List Stmt, l.all (fun s => !(isHandlingOp s.op)) = true →
      ∀ s ∈ l, oracle s ≠ none → execStmts oracle l ≠ Except.ok () := by
  intro l
  induction l with
  | nil => intro _ s hs; exact absurd hs (List.not_mem_nil s)
  | cons s0 rest ih =>
    intro hall s hs hfail
    rw [List.all_cons, Bool.and_eq_true] at hall
    have h0 : isHandlingOp s0.op = false := by
      have h1 := hall.1
      rwa [Bool.not_eq_true'] at h1
    rcases List.mem_cons.mp hs with rfl | hmem
    · obtain ⟨e, he⟩ := Option.ne_none_iff_exists'.mp hfail
      simp [execStmts, he, not_tryExcept_of_not_handling s.op h0]
    · cases hor : oracle s0 with
      | some e =>
        simp [execStmts, hor, not_tryExcept_of_not_handling s0.op h0]
      | none =>
        simpa [execStmts, hor] using ih hall.2 s hmem hfail

/-- C5: neither notebook contains any try/except, retry, assertion or raise
statement, and consequently, under every failure oracle, a failure of any
statement of a notebook makes the whole notebook execution fail (the
exception propagates out unhandled). -/
theorem no_error_handling_propagation :
    ((analysis2Stmts ++ sedFittingStmts).all (fun s => !(isHandlingOp s.op))) = true ∧
    ∀ (oracle : Stmt → Option String) (s : Stmt),
      (s ∈ analysis2Stmts → oracle s ≠ none →
        execStmts oracle analysis2Stmts ≠ Except.ok ()) ∧
      (s ∈ sedFittingStmts → oracle s ≠ none →
        execStmts oracle sedFittingStmts ≠ Except.ok ()) := by
  refine ⟨by rfl, fun oracle s => ⟨fun hm hf => ?_, fun hm hf => ?_⟩⟩
  · exact execStmts_fail_of_mem oracle analysis2Stmts (by rfl) s hm hf
  · exact execStmts_fail_of_mem oracle sedFittingStmts (by rfl) s hm hf

/-- C5 witness: a concrete oracle under which every library call raises; in
particular the first statement of `analysis_2` fails, so the notebook
execution is not successful. -/
theorem no_error_handling_propagation_witness :
    execStmts (fun _ => some "ImportError") analysis2Stmts ≠ Except.ok () :=
  (no_error_handling_propagation.2 (fun _ => some "ImportError")
      ⟨none, Op.magicCmd "matplotlib inline", [], false⟩).1
    (List.mem_append_left _ (List.mem_cons_self _ _))
    (Option.some_ne_none _)

/-- Classification of a statement's operation: a call into the external
scientific libraries (gammapy / astropy / numpy / regions), a plotting
call, a file-system effect, Python glue that performs no computation on
the data (imports, magics, literals, prints, displays), or arithmetic on
the data written in the notebook itself. -/
inductive StmtKind where
  | externalCall
  | plotting
  | fileEffect
  | pyGlue
  | localComputation
deriving DecidableEq

/-- Kind of each operation.  The two `localComputation` cases are the
notebook-level arithmetic expressions: the symmetrized-error column
`t[dnde_err] = 0.5 * (t[dnde_errn] + t[dnde_errp])` of `sed_fitting.ipynb`
and the fit-statistic delta `profile[stat] - total_stat` computed inside
the profile plot of `analysis_2.ipynb`. -/
def stmtKind : Op → StmtKind
  | Op.magicCmd _ => StmtKind.pyGlue
  | Op.pyImport _ => StmtKind.pyGlue
  | Op.dictLiteral => StmtKind.pyGlue
  | Op.printCall => StmtKind.pyGlue
  | Op.displayExpr => StmtKind.pyGlue
  | Op.tryExcept => StmtKind.pyGlue
  | Op.retryStmt => StmtKind.pyGlue
  | Op.assertStmt => StmtKind.pyGlue
  | Op.raiseStmt => StmtKind.pyGlue
  | Op.dataStoreFromDir _ => StmtKind.fileEffect
  | Op.pathInit _ => StmtKind.fileEffect
  | Op.mkdirCall _ _ => StmtKind.fileEffect
  | Op.pathJoin _ => StmtKind.fileEffect
  | Op.writeCall _ _ => StmtKind.fileEffect
  | Op.plotCall => StmtKind.plotting
  | Op.fluxPointsPlot => StmtKind.plotting
  | Op.statDeltaPlot => StmtKind.localComputation
  | Op.dndeErrCompute => StmtKind.localComputation
  | _ => StmtKind.externalCall

/-- C6 counterexample: not every computing statement of the notebooks is an
external-library call, a plotting call or file I/O; `sed_fitting.ipynb`
computes the `dnde_err` column by notebook-level arithmetic. -/
theorem sed_fitting_local_arithmetic :
    sedFittingStmts.all
      (fun s => !(stmtKind s.op matches StmtKind.localComputation)) = false := by
  rfl

/-- C6 (amended): apart from exactly two inline arithmetic expressions (the
fit-statistic delta plotted in `analysis_2.ipynb` and the `dnde_err`
symmetrized-error computation of `sed_fitting.ipynb`), every statement of
both notebooks is an external-library call, a plotting call, a file-system
effect, or non-computing Python glue. -/
theorem local_computation_exactly_two :
    ((analysis2Stmts ++ sedFittingStmts).filter
        (fun s => stmtKind s.op matches StmtKind.localComputation)).map (fun s => s.op)
      = [Op.statDeltaPlot, Op.dndeErrCompute] ∧
    ((analysis2Stmts ++ sedFittingStmts).all
        (fun s => (stmtKind s.op matches StmtKind.externalCall)
          || (stmtKind s.op matches StmtKind.plotting)
          || (stmtKind s.op matches StmtKind.fileEffect)
          || (stmtKind s.op matches StmtKind.pyGlue)
          || (s.op matches Op.statDeltaPlot) || (s.op matches Op.dndeErrCompute))) = true := by
  constructor <;> rfl

/-- Observation a notebook can make of a file system: the contents of
every path in its read set. -/
def observeFS (reads : List String) (fs : String → Option String) :
    List (String × Option String) :=
  reads.map (fun p => (p, fs p))

/-- Point update of a file system. -/
def updateFS (fs : String → Option String) (p c : String) :
    String → Option String :=
  fun q => if q = p then some c else fs q

/-- Helper: updating a path outside the read set does not change the
observation. -/
theorem observeFS_update_not_mem (reads : List String)
    (fs : String → Option String) (p c : String) (h : p ∉ reads) :
    observeFS reads (updateFS fs p c) = observeFS reads fs := by
  induction reads with
  | nil => rfl
  | cons q rest ih =>
    have hq : ¬(q = p) := fun hqp => h (hqp ▸ List.mem_cons_self q rest)
    have ht := ih (fun hm => h (List.mem_cons_of_mem q hm))
    simp only [observeFS, List.map_cons] at ht ⊢
    rw [ht]
    simp [updateFS, hq]

/-- Paths read by `analysis_2.ipynb`. -/
def analysis2Reads : List String := analysis2Stmts.flatMap fsReadPaths

/-- Paths read by `sed_fitting.ipynb`. -/
def sedFittingReads : List String := sedFittingStmts.flatMap fsReadPaths

/-- File-system effect of running `analysis_2.ipynb`: its single write
upserts the stacked-dataset file; `content` abstracts the written bytes
(a function of what the notebook read and of the reduction pipeline). -/
def runAnalysis2FS (content : String) (fs : String → Option String) :
    String → Option String :=
  updateFS fs "analysis_2/crab-stacked-dataset.fits.gz" content

/-- File-system effect of running `sed_fitting.ipynb`: none. -/
def runSedFittingFS (fs : String → Option String) : String → Option String :=
  fs

/-- C7: the notebooks do not interfere: `sed_fitting` writes nothing, the
file `analysis_2` writes is not in `sed_fitting`'s read set, so each
notebook observes the same file-system contents whether or not (and in
whatever order) the other ran, and the combined file-system effects
commute. -/
theorem notebook_noninterference :
    sedFittingStmts.flatMap fsWritePaths = [] ∧
    ∀ (content : String) (fs : String → Option String),
      observeFS sedFittingReads (runAnalysis2FS content fs)
          = observeFS sedFittingReads fs ∧
      observeFS analysis2Reads (runSedFittingFS fs) = observeFS analysis2Reads fs ∧
      runSedFittingFS (runAnalysis2FS content fs)
          = runAnalysis2FS content (runSedFittingFS fs) := by
  refine ⟨rfl, fun content fs => ⟨?_, rfl, rfl⟩⟩
  exact observeFS_update_not_mem sedFittingReads fs
    "analysis_2/crab-stacked-dataset.fits.gz" content (by decide)

/-- C7 witness: a concrete file system and written content on which
`sed_fitting`'s observation is unchanged by `analysis_2`'s write. -/
theorem notebook_noninterference_witness :
    observeFS sedFittingReads (runAnalysis2FS "fits-bytes" (fun _ => none))
      = observeFS sedFittingReads (fun _ => none) :=
  (notebook_noninterference.2 "fits-bytes" (fun _ => none)).1

/-- Idealized floating value of a flux-table column entry: a finite value
(idealized as a rational), NaN, or a signed infinity.  The claims about the
sed_fitting table concern only finiteness / NaN-ness and the exact mean of
two finite entries, which this idealization captures. -/
inductive PyFloat where
  | finite : ℚ → PyFloat
  | nan : PyFloat
  | inf : Bool → PyFloat
deriving DecidableEq

/-- Addition of column entries: NaN propagates, opposite infinities give
NaN, an infinity absorbs a finite value. -/
def PyFloat.add : PyFloat → PyFloat → PyFloat
  | PyFloat.finite a, PyFloat.finite b => PyFloat.finite (a + b)
  | PyFloat.nan, _ => PyFloat.nan
  | _, PyFloat.nan => PyFloat.nan
  | PyFloat.inf s, PyFloat.inf t => if s = t then PyFloat.inf s else PyFloat.nan
  | PyFloat.inf s, PyFloat.finite _ => PyFloat.inf s
  | PyFloat.finite _, PyFloat.inf t => PyFloat.inf t

/-- Multiplication by the literal 0.5. -/
def PyFloat.half : PyFloat → PyFloat
  | PyFloat.finite a => PyFloat.finite (a / 2)
  | PyFloat.nan => PyFloat.nan
  | PyFloat.inf s => PyFloat.inf s

/-- The `np.isfinite` test. -/
def PyFloat.isFin : PyFloat → Bool
  | PyFloat.finite _ => true
  | _ => false

/-- A row of the stacked flux-points table, keeping the columns the
sed_fitting filtering cell uses. -/
structure FluxRow where
  dnde : PyFloat
  dnde_errn : PyFloat
  dnde_errp : PyFloat
deriving DecidableEq

/-- A row extended with the `dnde_err` column added by the notebook. -/
structure FluxRowErr where
  row : FluxRow
  dnde_err : PyFloat
deriving DecidableEq

/-- Notebook cell `sed_fitting.ipynb`:
`t[dnde_err] = 0.5 * (t[dnde_errn] + t[dnde_errp])`, applied row-wise as
numpy broadcasting does. -/
def addDndeErr (t : List FluxRow) : List FluxRowErr :=
  t.map (fun r => ⟨r, (r.dnde_errn.add r.dnde_errp).half⟩)

/-- Notebook cell `sed_fitting.ipynb`: `is_ul = np.isfinite(t[dnde_err])`
followed by `flux_points = FluxPoints(t[is_ul])`. -/
def filterFiniteErr (t : List FluxRowErr) : List FluxRowErr :=
  t.filter (fun r => r.dnde_err.isFin)

/-- The flux-points table passed to the three `FluxPointsDataset` fits of
`sed_fitting.ipynb`. -/
def fitInputTable (t : List FluxRow) : List FluxRowErr :=
  filterFiniteErr (addDndeErr t)

/-- Order and dataflow of the sed_fitting notebook around the filter: no
fit or FluxPointsDataset construction occurs before the upper-limit
filtering statement, `flux_points` is not reassigned after it, there are
exactly three FluxPointsDataset fits, and each reads `flux_points`. -/
def sedFitOrderOk : Bool :=
  ((sedFittingStmts.takeWhile (fun s => !(s.op matches Op.fluxPointsFromTable))).all
      (fun s => !((s.op matches Op.fitRun) || (s.op matches Op.fluxPointsDatasetInit))))
  && (((sedFittingStmts.dropWhile
          (fun s => !(s.op matches Op.fluxPointsFromTable))).drop 1).all
        (fun s => s.target != some "flux_points"))
  && ((sedFittingStmts.filter (fun s => s.op matches Op.fitRun)).length == 3)
  && ((sedFittingStmts.filter
        (fun s => s.op matches Op.fluxPointsDatasetInit)).length == 3)
  && ((sedFittingStmts.filter (fun s => s.op matches Op.fluxPointsDatasetInit)).all
        (fun s => s.args.contains "flux_points"))

/-- Helper: a row whose computed error column is finite has finite errn and
errp entries. -/
theorem finite_of_half_add (x y : PyFloat) (h : ((x.add y).half).isFin = true) :
    ∃ a b : ℚ, x = PyFloat.finite a ∧ y = PyFloat.finite b := by
  cases x with
  | finite a =>
    cases y with
    | finite b => exact ⟨a, b, rfl, rfl⟩
    | nan => simp [PyFloat.add, PyFloat.half, PyFloat.isFin] at h
    | inf t => simp [PyFloat.add, PyFloat.half, PyFloat.isFin] at h
  | nan =>
    cases y <;> simp [PyFloat.add, PyFloat.half, PyFloat.isFin] at h
  | inf s =>
    cases y with
    | finite b => simp [PyFloat.add, PyFloat.half, PyFloat.isFin] at h
    | nan => simp [PyFloat.add, PyFloat.half, PyFloat.isFin] at h
    | inf t =>
      by_cases hst : s = t <;>
        simp [PyFloat.add, PyFloat.half, PyFloat.isFin, hst] at h

/-- C8: every row of the table passed to the three FluxPointsDataset fits
of `sed_fitting.ipynb` has finite (hence non-NaN) `dnde_errn` and
`dnde_errp`, and its `dnde_err` is exactly the arithmetic mean of the two;
and in the notebook the filtering statement precedes all three fits, which
all read the filtered `flux_points`. -/
theorem fit_table_rows_finite_mean :
    (∀ (t : List FluxRow) (r : FluxRowErr), r ∈ fitInputTable t →
      r.row.dnde_errn.isFin = true ∧ r.row.dnde_errp.isFin = true ∧
      r.row.dnde_errn ≠ PyFloat.nan ∧ r.row.dnde_errp ≠ PyFloat.nan ∧
      ∀ a b : ℚ, r.row.dnde_errn = PyFloat.finite a →
        r.row.dnde_errp = PyFloat.finite b →
        r.dnde_err = PyFloat.finite ((a + b) / 2)) ∧
    sedFitOrderOk = true := by
  refine ⟨?_, by rfl⟩
  intro t r hr
  obtain ⟨hmem, hfin⟩ := List.mem_filter.mp hr
  obtain ⟨r0, hr0, rfl⟩ := List.mem_map.mp hmem
  obtain ⟨a, b, ha, hb⟩ := finite_of_half_add r0.dnde_errn r0.dnde_errp hfin
  refine ⟨by simp [ha, PyFloat.isFin], by simp [hb, PyFloat.isFin],
    by simp [ha], by simp [hb], ?_⟩
  intro a' b' ha' hb'
  have ha2 : r0.dnde_errn = PyFloat.finite a' := ha'
  have hb2 : r0.dnde_errp = PyFloat.finite b' := hb'
  show ((r0.dnde_errn.add r0.dnde_errp).half) = PyFloat.finite ((a' + b') / 2)
  rw [ha2, hb2]
  rfl

/-- C8 witness: on a concrete two-row table whose second row is an upper
limit (NaN errn), the fit-input table keeps only the first row and its
error column is the mean (1 + 3) / 2. -/
theorem fit_table_rows_finite_mean_witness :
    (⟨⟨PyFloat.finite 1, PyFloat.finite 1, PyFloat.finite 3⟩,
        ((PyFloat.finite 1).add (PyFloat.finite 3)).half⟩ : FluxRowErr).dnde_err
      = PyFloat.finite ((1 + 3) / 2) :=
  (fit_table_rows_finite_mean.1
      [⟨PyFloat.finite 1, PyFloat.finite 1, PyFloat.finite 3⟩,
       ⟨PyFloat.finite 2, PyFloat.nan, PyFloat.finite 2⟩]
      ⟨⟨PyFloat.finite 1, PyFloat.finite 1, PyFloat.finite 3⟩,
        ((PyFloat.finite 1).add (PyFloat.finite 3)).half⟩
      (List.mem_filter.mpr
        ⟨List.mem_map.mpr
          ⟨⟨PyFloat.finite 1, PyFloat.finite 1, PyFloat.finite 3⟩,
           List.mem_cons_self _ _, rfl⟩, rfl⟩)).2.2.2.2 1 3 rfl rfl

/-- Modelled from the spec: a WCS map geometry as constructed by
`WcsGeom.create` in the notebook (sky direction, bin size, width, energy
axis bins); the library type is not under `src/`. -/
structure WcsGeomM where
  skydirLon : ℚ
  skydirLat : ℚ
  binsz : ℚ
  width : ℚ × ℚ
  energyBins : ℕ
deriving DecidableEq

/-- An observation record (obs_id and pointing), as iterated over by the
reduction loop. -/
structure ObsM where
  obsId : ℕ
  pointingLon : ℚ
  pointingLat : ℚ
deriving DecidableEq

/-- Modelled from the spec: a stacked dataset holds "counts, background,
exposure, masks" on a geometry, plus the true-energy axis and the name it
was created with; the library `MapDataset` is not under `src/`. -/
structure MapDatasetM where
  geom : WcsGeomM
  energyAxisTrueBins : ℕ
  name : String
  counts : ℕ → ℤ
  background : ℕ → ℚ
  exposure : ℕ → ℚ
  maskSafe : ℕ → Bool

/-- Modelled from the spec: `MapDataset.create` builds an empty dataset on
the given geometry and true-energy axis with the given name. -/
def MapDatasetM.create (geom : WcsGeomM) (energyAxisTrueBins : ℕ)
    (name : String) : MapDatasetM :=
  ⟨geom, energyAxisTrueBins, name, fun _ => 0, fun _ => 0, fun _ => 0, fun _ => false⟩

/-- Modelled from the spec: "Stacking: summing multiple per-observation
reduced datasets into one combined dataset for joint analysis".
`stacked.stack(dataset)` accumulates the content maps (counts, background,
exposure, safe mask) of the argument into the target in place; the
target's geometry, true-energy axis and name are not touched. -/
def MapDatasetM.stack (self other : MapDatasetM) : MapDatasetM :=
  ⟨self.geom, self.energyAxisTrueBins, self.name,
   fun p => self.counts p + other.counts p,
   fun p => self.background p + other.background p,
   fun p => self.exposure p + other.exposure p,
   fun p => self.maskSafe p || other.maskSafe p⟩

/-- One iteration of the reduction loop of `analysis_2.ipynb`: cutout of
the current target, `maker.run`, `maker_fov.run`, `maker_safe_mask.run`
(library functions, taken as arbitrary parameters), then stacking the
resulting per-observation dataset onto the target. -/
def reduceIter (cutoutF : MapDatasetM → ObsM → MapDatasetM)
    (makerF : MapDatasetM → ObsM → MapDatasetM)
    (fovF : MapDatasetM → MapDatasetM)
    (safeF : MapDatasetM → ObsM → MapDatasetM)
    (stacked : MapDatasetM) (obs : ObsM) : MapDatasetM :=
  stacked.stack (safeF (fovF (makerF (cutoutF stacked obs) obs)) obs)

/-- The reduction loop `for obs in observations: ...` of
`analysis_2.ipynb`. -/
def reduceLoop (cutoutF makerF : MapDatasetM → ObsM → MapDatasetM)
    (fovF : MapDatasetM → MapDatasetM)
    (safeF : MapDatasetM → ObsM → MapDatasetM)
    (stacked : MapDatasetM) (obss : List ObsM) : MapDatasetM :=
  obss.foldl (reduceIter cutoutF makerF fovF safeF) stacked

/-- The target geometry of `analysis_2.ipynb`: skydir (83.633, 22.014),
binsz 0.02 deg, width (2, 2) deg, 4 energy bins. -/
def analysis2Geom : WcsGeomM :=
  ⟨83633 / 1000, 22014 / 1000, 2 / 100, (2, 2), 4⟩

/-- The target dataset `stacked` of `analysis_2.ipynb`, created on
`analysis2Geom` with 10 true-energy bins and name "crab-stacked". -/
def crabStacked : MapDatasetM :=
  MapDatasetM.create analysis2Geom 10 "crab-stacked"

/-- C9: whatever the maker library functions do, every iteration of the
reduction loop changes only the content maps of the target dataset: its
geometry, true-energy axis and name are unchanged after each iteration and
hence after the whole loop. -/
theorem stack_preserves_geom_name
    (cutoutF makerF : MapDatasetM → ObsM → MapDatasetM)
    (fovF : MapDatasetM → MapDatasetM)
    (safeF : MapDatasetM → ObsM → MapDatasetM) :
    (∀ (st : MapDatasetM) (obs : ObsM),
      (reduceIter cutoutF makerF fovF safeF st obs).geom = st.geom ∧
      (reduceIter cutoutF makerF fovF safeF st obs).energyAxisTrueBins
          = st.energyAxisTrueBins ∧
      (reduceIter cutoutF makerF fovF safeF st obs).name = st.name) ∧
    ∀ (init : MapDatasetM) (obss : List ObsM),
      (reduceLoop cutoutF makerF fovF safeF init obss).geom = init.geom ∧
      (reduceLoop cutoutF makerF fovF safeF init obss).energyAxisTrueBins
          = init.energyAxisTrueBins ∧
      (reduceLoop cutoutF makerF fovF safeF init obss).name = init.name := by
  refine ⟨fun st obs => ⟨rfl, rfl, rfl⟩, fun init obss => ?_⟩
  induction obss generalizing init with
  | nil => exact ⟨rfl, rfl, rfl⟩
  | cons o rest ih =>
    exact ⟨(ih (reduceIter cutoutF makerF fovF safeF init o)).1,
           (ih (reduceIter cutoutF makerF fovF safeF init o)).2.1,
           (ih (reduceIter cutoutF makerF fovF safeF init o)).2.2⟩

/-- C9 witness: running the loop on the crab target with concrete trivial
maker functions and one observation leaves the geometry and name of the
target unchanged. -/
theorem stack_preserves_geom_name_witness :
    (reduceLoop (fun st _ => st) (fun st _ => st) (fun st => st) (fun st _ => st)
        crabStacked [⟨23523, 83633 / 1000, 22014 / 1000⟩]).geom = analysis2Geom ∧
    (reduceLoop (fun st _ => st) (fun st _ => st) (fun st => st) (fun st _ => st)
        crabStacked [⟨23523, 83633 / 1000, 22014 / 1000⟩]).name = "crab-stacked" :=
  ⟨((stack_preserves_geom_name (fun st _ => st) (fun st _ => st) (fun st => st)
      (fun st _ => st)).2 crabStacked [⟨23523, 83633 / 1000, 22014 / 1000⟩]).1,
   ((stack_preserves_geom_name (fun st _ => st) (fun st _ => st) (fun st => st)
      (fun st _ => st)).2 crabStacked [⟨23523, 83633 / 1000, 22014 / 1000⟩]).2.2⟩

/-- A file-system state: existing directories, and files with their
contents.  Directory and file namespaces are kept separate. -/
structure FSState where
  dirs : List String
  files : List (String × String)
deriving DecidableEq

/-- Modelled from Python's `Path.mkdir(exist_ok=...)` semantics, which is
not under `src/`: create the directory if missing; if it already exists,
raise FileExistsError unless exist_ok is set. -/
def mkdirFS (d : String) (existOk : Bool) (fs : FSState) : Except String FSState :=
  if fs.dirs.contains d then
    if existOk then Except.ok fs else Except.error "FileExistsError"
  else Except.ok ⟨d :: fs.dirs, fs.files⟩

/-- Replace the binding of p in an association list, or append it. -/
def upsert (p c : String) : List (String × String) → List (String × String)
  | [] => [(p, c)]
  | (q, d) :: rest => if q = p then (q, c) :: rest else (q, d) :: upsert p c rest

/-- Modelled from the spec and gammapy's `MapDataset.write(overwrite=...)`
semantics, which is not under `src/`: refuse to replace an existing file
unless overwrite is set; otherwise write the serialized dataset at the
path. -/
def writeFS (p c : String) (overwrite : Bool) (fs : FSState) :
    Except String FSState :=
  if fs.files.any (fun qc => qc.1 == p) && !overwrite then
    Except.error "OSError: file exists"
  else Except.ok ⟨fs.dirs, upsert p c fs.files⟩

/-- The save cells of `analysis_2.ipynb`:
`Path("analysis_2").mkdir(exist_ok=True)` then
`stacked.write(path / "crab-stacked-dataset.fits.gz", overwrite=True)`;
`content` abstracts the serialized stacked dataset. -/
def saveCells (content : String) (fs : FSState) : Except String FSState :=
  match mkdirFS "analysis_2" true fs with
  | Except.error e => Except.error e
  | Except.ok fs1 => writeFS "analysis_2/crab-stacked-dataset.fits.gz" content true fs1

/-- The run succeeded. -/
def exceptOk : Except String FSState → Bool
  | Except.ok _ => true
  | Except.error _ => false

/-- Helper: upserting the same binding twice equals upserting it once. -/
theorem upsert_idem (p c : String) (l : List (String × String)) :
    upsert p c (upsert p c l) = upsert p c l := by
  induction l with
  | nil => simp [upsert]
  | cons qd rest ih =>
    obtain ⟨q, d⟩ := qd
    by_cases h : q = p
    · simp [upsert, h]
    · simp [upsert, h, ih]

/-- C10: the save step of `analysis_2.ipynb` succeeds on every file-system
state (in particular on every state where the output directory and/or the
output file already exist), and re-running it leaves the file system
exactly as after the first run. -/
theorem save_idempotent (content : String) (fs : FSState) :
    exceptOk (saveCells content fs) = true ∧
    ∀ fs', saveCells content fs = Except.ok fs' →
      saveCells content fs' = Except.ok fs' := by
  constructor
  · by_cases h : "analysis_2" ∈ fs.dirs <;>
      simp [saveCells, mkdirFS, writeFS, h, exceptOk]
  · intro fs' hok
    by_cases h : "analysis_2" ∈ fs.dirs
    · simp [saveCells, mkdirFS, writeFS, h] at hok
      subst hok
      simp [saveCells, mkdirFS, writeFS, h, upsert_idem]
    · simp [saveCells, mkdirFS, writeFS, h] at hok
      subst hok
      simp [saveCells, mkdirFS, writeFS, upsert_idem]

/-- C10 witness: starting from a state where the directory and the output
file both exist, re-running the save returns the same state. -/
theorem save_idempotent_witness :
    saveCells "fits-bytes"
        ⟨["analysis_2"], [("analysis_2/crab-stacked-dataset.fits.gz", "fits-bytes")]⟩
      = Except.ok
        ⟨["analysis_2"], [("analysis_2/crab-stacked-dataset.fits.gz", "fits-bytes")]⟩ :=
  (save_idempotent "fits-bytes" ⟨["analysis_2"], []⟩).2
    ⟨["analysis_2"], [("analysis_2/crab-stacked-dataset.fits.gz", "fits-bytes")]⟩
    (by rfl)
